import Mathlib

/-!
Verification of the Resilient Streaming Gateway (Next.js frontend proxy)
against its specification.  The embedding below follows
frontend-nextjs/app/api/chat/route.ts, frontend-nextjs/app/chat/ChatInterface.tsx
and the check-payment-status route.  Components that live in the
backend-agent service or in the opossum dependency are modelled from the
spec, as flagged in their doc comments.
-/

namespace Gateway

/-- States of the circuit breaker: CLOSED, OPEN, HALF_OPEN. -/
inductive BreakerState
| CLOSED
| OPEN
| HALF_OPEN
deriving DecidableEq, Repr

/-- Options passed to the opossum CircuitBreaker constructor in route.ts. -/
structure BreakerOptions where
  timeout : Nat
  errorThresholdPercentage : Nat
  resetTimeout : Nat
deriving DecidableEq, Repr

/-- Concrete options from route.ts: timeout 15000 ms, trip at 50 percent
failures, 10000 ms cool-down before half-open. -/
def breakerOptions : BreakerOptions :=
  ⟨15000, 50, 10000⟩

/-- Modelled from the spec: Breaker State of section 3 — the breaker
implementation is the opossum dependency, not code under src/.  State plus a
rolling window of success and failure counts and the time the breaker last
opened (nextProbeAt is openedAt plus resetTimeout). -/
structure Breaker where
  state : BreakerState
  successCount : Nat
  failureCount : Nat
  openedAt : Nat
deriving DecidableEq, Repr

/-- Modelled from the spec: transition OPEN to HALF_OPEN automatically after
the configured cool-down elapses; the state the breaker is effectively in
when a call arrives at time now. -/
def Breaker.effectiveState (opts : BreakerOptions) (b : Breaker) (now : Nat) :
    BreakerState :=
  match b.state with
  | .OPEN => if b.openedAt + opts.resetTimeout ≤ now then .HALF_OPEN else .OPEN
  | s => s

/-- Modelled from the spec: trip condition — the failure percentage within
the rolling window strictly exceeds errorThresholdPercentage. -/
def tripped (opts : BreakerOptions) (succ fail : Nat) : Bool :=
  decide (opts.errorThresholdPercentage * (succ + fail) < 100 * fail)

/-- Shape of a fetch Response as the route handler observes it: the status
code, whether the body stream is non-null, and the body text. -/
structure WireResponse where
  status : Nat
  hasBody : Bool
  bodyText : String
deriving DecidableEq, Repr

/-- Fallback registered on the breaker in route.ts: a Response with status
503 whose body is a JSON error string — hence a non-null body stream. -/
def fallbackResponse : WireResponse :=
  ⟨503, true, "Service Unavailable (Circuit Open). Please try again later."⟩

/-- Status check of fetchBackend in route.ts: response.ok means a 2xx
status; a non-ok response makes fetchBackend throw, which opossum counts as
a failure. -/
def statusOk (s : Nat) : Bool :=
  decide (200 ≤ s) && decide (s < 300)

/-- Outcome of one attempted downstream fetch: some response when the fetch
returned an ok response, none when it returned non-2xx, failed to connect or
timed out (fetchBackend throws in all those cases). -/
def callOutcome : Option WireResponse → Option WireResponse
| some r => if statusOk r.status then some r else none
| none => none

/-- Result of breaker.fire: whether a downstream request was attempted, the
response the handler receives (upstream response or fallback), and the
updated breaker. -/
structure FireOutcome where
  attempted : Bool
  result : WireResponse
  breaker : Breaker
deriving DecidableEq, Repr

/-- Modelled from the spec: breaker.fire of the opossum dependency with a
fallback registered.  While effectively OPEN the call short-circuits to the
fallback with no attempt; in HALF_OPEN a single probe is attempted, success
closing the breaker and failure reopening it with a restarted cool-down; in
CLOSED the call is attempted, a failure is counted and the breaker trips to
OPEN when the windowed failure percentage exceeds the threshold.  With a
fallback registered, fire resolves with the fallback value on any failure
and never rejects. -/
def Breaker.fire (opts : BreakerOptions) (b : Breaker) (now : Nat)
    (upstream : Option WireResponse) : FireOutcome :=
  match b.effectiveState opts now with
  | .OPEN => ⟨false, fallbackResponse, b⟩
  | .HALF_OPEN =>
    match callOutcome upstream with
    | some r => ⟨true, r, ⟨.CLOSED, 0, 0, 0⟩⟩
    | none => ⟨true, fallbackResponse, ⟨.OPEN, b.successCount, b.failureCount, now⟩⟩
  | .CLOSED =>
    match callOutcome upstream with
    | some r => ⟨true, r, { b with successCount := b.successCount + 1 }⟩
    | none =>
      ⟨true, fallbackResponse,
        if tripped opts b.successCount (b.failureCount + 1) then
          ⟨.OPEN, b.successCount, b.failureCount + 1, now⟩
        else
          { b with failureCount := b.failureCount + 1 }⟩

/-- Value found at the message field of the parsed JSON request body. -/
inductive MsgField
| absent
| str (s : String)
| nonString
deriving DecidableEq, Repr

/-- Validation in route.ts: body.message must be truthy (a missing field, a
non-string value modelled as falsy-or-wrong-type, and the empty string all
fail) and of type string. -/
def msgValid : MsgField → Bool
| .str s => !(s == "")
| _ => false

/-- Inputs the POST handler of route.ts inspects before firing the breaker:
the parsed body (none when req.json() throws), the BACKEND_URL environment
variable, and the Authorization header. -/
structure PostInput where
  bodyParsed : Option MsgField
  backendUrl : Option String
  authHeader : Option String
deriving DecidableEq, Repr

/-- Response the gateway returns to its caller: status code and body text. -/
structure GatewayResponse where
  status : Nat
  bodyText : String
deriving DecidableEq, Repr

/-- Early-return logic of POST in route.ts, in source order: a body-parse
error yields 500 Internal Server Error via the outer catch; a missing
BACKEND_URL yields 500; an invalid message yields 400; a missing
Authorization header yields 401.  Returns none when the handler proceeds to
the breaker-gated downstream call. -/
def gatewayPre (i : PostInput) : Option GatewayResponse :=
  match i.bodyParsed with
  | none => some ⟨500, "Internal Server Error"⟩
  | some m =>
    match i.backendUrl with
    | none => some ⟨500, "Backend URL not configured."⟩
    | some _ =>
      if !(msgValid m) then some ⟨400, "Invalid request: message is required"⟩
      else
        match i.authHeader with
        | none => some ⟨401, "Unauthorized: Missing User Token"⟩
        | some _ => none

/-- Post-breaker relay logic of POST in route.ts: a response with status 503
and a null body would be returned as is; any other null body yields 502; a
response with a non-null body is re-wrapped in a fresh status 200
text/event-stream response carrying the same body. -/
def relay (r : WireResponse) : GatewayResponse :=
  if r.status == 503 && !r.hasBody then ⟨503, r.bodyText⟩
  else if !r.hasBody then ⟨502, "Empty response from backend"⟩
  else ⟨200, r.bodyText⟩

/-- Full result of one POST invocation: the response sent to the caller,
whether a downstream request was attempted, and the breaker afterwards. -/
structure PostResult where
  response : GatewayResponse
  downstreamAttempted : Bool
  breaker : Breaker
deriving DecidableEq, Repr

/-- POST handler of route.ts: run the early checks; if they pass, fire the
breaker on the downstream /stream call and relay its result. -/
def POST (opts : BreakerOptions) (i : PostInput) (b : Breaker) (now : Nat)
    (upstream : Option WireResponse) : PostResult :=
  match gatewayPre i with
  | some resp => ⟨resp, false, b⟩
  | none =>
    let o := Breaker.fire opts b now upstream
    ⟨relay o.result, o.attempted, o.breaker⟩

/-- Action the chat client takes after the fetch to /api/chat returns, in
ChatInterface.tsx handleSubmit: navigate to a page (throwing an error that
the catch block renders), render an error message, or read and render the
response stream. -/
inductive ClientAction
| navigate (path : String) (errMsg : String)
| renderError (msg : String)
| renderStream
deriving DecidableEq, Repr

/-- Status dispatch of handleSubmit in ChatInterface.tsx: status 402 or 403
pushes the router to /payment and throws (so the body is never read); any
other non-ok status renders the error field of the body, defaulting to
Failed to fetch; an ok status streams the body into the assistant turn. -/
def handleSubmitDispatch (status : Nat) (errBody : Option String) :
    ClientAction :=
  if status == 402 || status == 403 then
    .navigate "/payment" "Subscription required. Redirecting to payment..."
  else if !(statusOk status) then
    .renderError (errBody.getD "Failed to fetch")
  else
    .renderStream

/-- Fields of the retrieved Stripe checkout session the GET handler reads. -/
structure StripeSession where
  status : String
  payment_status : String
deriving DecidableEq, Repr

/-- Body of the check-payment-status response. -/
inductive PaymentVerdict
| success
| pending
| failed
| errorResp (status : Nat) (msg : String)
deriving DecidableEq, Repr

/-- Result of the check-payment-status GET handler: the response body and
whether the httpOnly payment_completed cookie (30-day maxAge) was set. -/
structure PaymentCheckResult where
  verdict : PaymentVerdict
  cookieSet : Bool
deriving DecidableEq, Repr

/-- GET handler of the check-payment-status route: a missing session_id
query parameter yields 400; a throwing Stripe retrieve (modelled as none)
yields 500; a session with status complete and payment_status paid sets the
cookie and answers success; an open session answers pending; anything else
answers failed, in both latter cases without touching the cookie. -/
def GET (sessionId : Option String) (retrieved : Option StripeSession) :
    PaymentCheckResult :=
  match sessionId with
  | none => ⟨.errorResp 400 "Session ID is required", false⟩
  | some _ =>
    match retrieved with
    | none => ⟨.errorResp 500 "Internal server error", false⟩
    | some s =>
      if s.status == "complete" && s.payment_status == "paid" then
        ⟨.success, true⟩
      else if s.status == "open" then ⟨.pending, false⟩
      else ⟨.failed, false⟩

/-- Modelled from the spec: the configured maximum length of rawText — the
backend-agent service enforcing it is not under src/; the repository README
records a strict 10000-character limit on user messages enforced by the
request model before any pipeline stage. -/
def MAX_MESSAGE_LENGTH : Nat := 10000

/-- Result of the Fast Pattern Screen of section 4.2: a conclusive-block
flag and a suspicious flag. -/
structure ScreenResult where
  conclusiveBlock : Bool
  suspicious : Bool
deriving DecidableEq, Repr

/-- Final verdict of the Guardrail Pipeline. -/
inductive Verdict
| ALLOWED
| BLOCKED
deriving DecidableEq, Repr

/-- Trace of one Guardrail Pipeline run: the verdict, how many times the
Sensitive-Data Redactor and the Intent Classifier were invoked, and the
payload forwarded downstream (none when blocked). -/
structure PipelineRun where
  verdict : Verdict
  redactorCalls : Nat
  classifierCalls : Nat
  forwarded : Option String
deriving DecidableEq, Repr

/-- Modelled from the spec: Guardrail Pipeline orchestration of section 4.5
— the backend-agent service implementing it is not under src/.  Screening
always runs; a conclusive block short-circuits to BLOCKED with the Redactor
and the Intent Classifier never invoked; otherwise the Redactor runs only on
suspicious input and the Intent Classifier always runs on the possibly
redacted text, SAFE (true) yielding ALLOWED and anything else BLOCKED. -/
def runPipeline (screen : String → ScreenResult) (redact : String → String)
    (classify : String → Bool) (text : String) : PipelineRun :=
  let s := screen text
  if s.conclusiveBlock then ⟨.BLOCKED, 0, 0, none⟩
  else
    let redacted := if s.suspicious then redact text else text
    let rCalls : Nat := if s.suspicious then 1 else 0
    if classify redacted then ⟨.ALLOWED, rCalls, 1, some redacted⟩
    else ⟨.BLOCKED, rCalls, 1, none⟩

/-- Outcome of handling one request envelope on the backend: either an
early validation error, or the Guardrail Pipeline trace. -/
structure EnvelopeRun where
  validationError : Option String
  pipeline : Option PipelineRun
deriving DecidableEq, Repr

/-- Modelled from the spec: envelope validation of section 3 — the
backend-agent request model is not under src/.  The rawText length is
checked against the configured maximum before any pipeline stage runs; an
oversize request fails with InputTooLarge and is never forwarded. -/
def handleEnvelope (screen : String → ScreenResult)
    (redact : String → String) (classify : String → Bool)
    (rawText : String) : EnvelopeRun :=
  if MAX_MESSAGE_LENGTH < rawText.length then ⟨some "InputTooLarge", none⟩
  else ⟨none, some (runPipeline screen redact classify rawText)⟩

/-- Modelled from the spec: Scoped Session Key derivation of section 3 —
the backend-agent service deriving it is not under src/.  The key is the
composite of the server-asserted identity and the client-chosen conversation
identifier, user_email:session_id per the repository README. -/
def scopedSessionKey (requesterIdentity conversationId : String) : String :=
  requesterIdentity ++ ":" ++ conversationId

end Gateway

namespace Gateway

/-- C1: with the configured options (errorThresholdPercentage 50), a CLOSED
breaker whose failed call pushes the windowed failure percentage strictly
over the threshold transitions to OPEN; and every call fired while the
breaker is OPEN and the cool-down (resetTimeout) has not yet elapsed
attempts no downstream request, short-circuits to the fallback, and leaves
the breaker unchanged. -/
theorem C1_breaker_trip_and_open_short_circuit
    (b : Breaker) (now : Nat) (upstream : Option WireResponse) :
    (b.state = .CLOSED → callOutcome upstream = none →
      breakerOptions.errorThresholdPercentage *
          (b.successCount + (b.failureCount + 1)) <
        100 * (b.failureCount + 1) →
      (Breaker.fire breakerOptions b now upstream).breaker.state = .OPEN) ∧
    (b.state = .OPEN → now < b.openedAt + breakerOptions.resetTimeout →
      (Breaker.fire breakerOptions b now upstream).attempted = false ∧
      (Breaker.fire breakerOptions b now upstream).result = fallbackResponse ∧
      (Breaker.fire breakerOptions b now upstream).breaker = b) := by
  constructor
  · intro hs hc ht
    simp [Breaker.fire, Breaker.effectiveState, hs, hc, tripped, ht]
  · intro hs hn
    have hlt : ¬ (b.openedAt + breakerOptions.resetTimeout ≤ now) :=
      Nat.not_le.mpr hn
    simp [Breaker.fire, Breaker.effectiveState, hs, hlt]

/-- C1 witness: a single failure on a fresh CLOSED breaker (failure rate 100
percent) trips it to OPEN, and a call at time 5 on a breaker opened at time
0 is short-circuited to the fallback without an attempt. -/
theorem C1_breaker_trip_and_open_short_circuit_witness :
    (Breaker.fire breakerOptions ⟨.CLOSED, 0, 0, 0⟩ 0 none).breaker.state =
        .OPEN ∧
    ((Breaker.fire breakerOptions ⟨.OPEN, 0, 1, 0⟩ 5 none).attempted = false ∧
      (Breaker.fire breakerOptions ⟨.OPEN, 0, 1, 0⟩ 5 none).result =
        fallbackResponse ∧
      (Breaker.fire breakerOptions ⟨.OPEN, 0, 1, 0⟩ 5 none).breaker =
        ⟨.OPEN, 0, 1, 0⟩) :=
  ⟨(C1_breaker_trip_and_open_short_circuit ⟨.CLOSED, 0, 0, 0⟩ 0 none).1
      rfl rfl (by decide),
   (C1_breaker_trip_and_open_short_circuit ⟨.OPEN, 0, 1, 0⟩ 5 none).2
      rfl (by decide)⟩

/-- C5: a HALF_OPEN probe success transitions the breaker to CLOSED, a
HALF_OPEN probe failure transitions it back to OPEN with the cool-down
restarted at the probe time, and an OPEN breaker is effectively HALF_OPEN
once the configured resetTimeout (10000 ms) has elapsed since it opened. -/
theorem C5_half_open_probe_and_cooldown
    (b : Breaker) (now : Nat) (upstream : Option WireResponse)
    (r : WireResponse) :
    (b.state = .HALF_OPEN → callOutcome upstream = some r →
      (Breaker.fire breakerOptions b now upstream).breaker.state = .CLOSED) ∧
    (b.state = .HALF_OPEN → callOutcome upstream = none →
      (Breaker.fire breakerOptions b now upstream).breaker.state = .OPEN ∧
      (Breaker.fire breakerOptions b now upstream).breaker.openedAt = now) ∧
    (b.state = .OPEN → b.openedAt + breakerOptions.resetTimeout ≤ now →
      b.effectiveState breakerOptions now = .HALF_OPEN) := by
  refine ⟨?_, ?_, ?_⟩
  · intro hs hc
    simp [Breaker.fire, Breaker.effectiveState, hs, hc]
  · intro hs hc
    simp [Breaker.fire, Breaker.effectiveState, hs, hc]
  · intro hs hn
    simp [Breaker.effectiveState, hs, hn]

/-- C5 witness: a successful probe at status 200 closes a HALF_OPEN
breaker, a failed probe reopens it with openedAt reset to the probe time 7,
and an OPEN breaker opened at time 0 is effectively HALF_OPEN at time
10000. -/
theorem C5_half_open_probe_and_cooldown_witness :
    (Breaker.fire breakerOptions ⟨.HALF_OPEN, 0, 1, 0⟩ 7
        (some ⟨200, true, "ok"⟩)).breaker.state = .CLOSED ∧
    ((Breaker.fire breakerOptions ⟨.HALF_OPEN, 0, 1, 0⟩ 7 none).breaker.state =
        .OPEN ∧
      (Breaker.fire breakerOptions ⟨.HALF_OPEN, 0, 1, 0⟩ 7
          none).breaker.openedAt = 7) ∧
    Breaker.effectiveState breakerOptions ⟨.OPEN, 0, 1, 0⟩ 10000 =
      .HALF_OPEN :=
  ⟨(C5_half_open_probe_and_cooldown ⟨.HALF_OPEN, 0, 1, 0⟩ 7
        (some ⟨200, true, "ok"⟩) ⟨200, true, "ok"⟩).1 rfl (by decide),
   (C5_half_open_probe_and_cooldown ⟨.HALF_OPEN, 0, 1, 0⟩ 7 none
        ⟨200, true, "ok"⟩).2.1 rfl rfl,
   (C5_half_open_probe_and_cooldown ⟨.OPEN, 0, 1, 0⟩ 10000 none
        ⟨200, true, "ok"⟩).2.2 rfl (by decide)⟩

/-- C2: evaluation of the code at the failing input — with the breaker OPEN
(so the fallback Response with status 503 and a JSON string body is what
breaker.fire resolves with), the POST handler does not return the 503
fallback: the guard requiring a null body can never hold for the
string-bodied fallback, so the handler re-wraps the fallback body in a fresh
status 200 text/event-stream response. -/
theorem C2_open_breaker_rewrapped_as_200 :
    (POST breakerOptions
        ⟨some (.str "hello"), some "https://backend", some "Bearer tok"⟩
        ⟨.OPEN, 0, 1, 100⟩ 100 none).response =
      ⟨200, fallbackResponse.bodyText⟩ ∧
    (POST breakerOptions
        ⟨some (.str "hello"), some "https://backend", some "Bearer tok"⟩
        ⟨.OPEN, 0, 1, 100⟩ 100 none).downstreamAttempted = false ∧
    (200 : Nat) ≠ 503 := by
  refine ⟨rfl, rfl, by decide⟩

/-- C3 counterexample: a request whose Authorization header is missing but
whose body carries no valid message is answered with status 400, not the
claimed 401, because route.ts validates the message field before it looks at
the Authorization header. -/
theorem C3_missing_auth_counterexample :
    (POST breakerOptions ⟨some .absent, some "https://backend", none⟩
        ⟨.CLOSED, 0, 0, 0⟩ 0 none).response.status = 400 ∧
    (400 : Nat) ≠ 401 :=
  ⟨rfl, by decide⟩

/-- C3 (amended): for every request whose body parses and carries a valid
message and whose BACKEND_URL is configured, a missing Authorization header
makes the POST handler return 401 Unauthenticated, with no downstream call
fired and the breaker untouched. -/
theorem C3_missing_auth_yields_401 (m : MsgField) (url : String)
    (b : Breaker) (now : Nat) (upstream : Option WireResponse)
    (hm : msgValid m = true) :
    POST breakerOptions ⟨some m, some url, none⟩ b now upstream =
      ⟨⟨401, "Unauthorized: Missing User Token"⟩, false, b⟩ := by
  simp [POST, gatewayPre, hm]

/-- C3 witness: a missing Authorization header on an otherwise valid
request yields 401 with no downstream attempt. -/
theorem C3_missing_auth_yields_401_witness :
    POST breakerOptions ⟨some (.str "hello"), some "https://backend", none⟩
        ⟨.CLOSED, 0, 0, 0⟩ 0 none =
      ⟨⟨401, "Unauthorized: Missing User Token"⟩, false,
        ⟨.CLOSED, 0, 0, 0⟩⟩ :=
  C3_missing_auth_yields_401 (.str "hello") "https://backend"
    ⟨.CLOSED, 0, 0, 0⟩ 0 none rfl

/-- C9 counterexample: with BACKEND_URL unset, a request whose body does
not parse is answered 500 Internal Server Error by the outer catch — not
the claimed Backend URL not configured. — because req.json() runs before
the BACKEND_URL check in route.ts. -/
theorem C9_backend_url_unset_counterexample :
    (POST breakerOptions ⟨none, none, none⟩ ⟨.CLOSED, 0, 0, 0⟩ 0
        none).response = ⟨500, "Internal Server Error"⟩ ∧
    "Internal Server Error" ≠ "Backend URL not configured." :=
  ⟨rfl, by decide⟩

/-- C9 (amended): for every request whose body parses, with BACKEND_URL
unset the POST handler answers 500 with the error Backend URL not
configured., no downstream call is attempted, and the breaker (its success
and failure counts included) is returned unchanged, for every parsed body,
Authorization header, breaker state, time and upstream behavior. -/
theorem C9_backend_url_unset_500 (m : MsgField) (auth : Option String)
    (b : Breaker) (now : Nat) (upstream : Option WireResponse) :
    POST breakerOptions ⟨some m, none, auth⟩ b now upstream =
      ⟨⟨500, "Backend URL not configured."⟩, false, b⟩ := by
  simp [POST, gatewayPre]

/-- C4: a request envelope whose rawText exceeds the configured maximum
length fails with InputTooLarge before any pipeline stage runs, and nothing
is forwarded downstream. -/
theorem C4_oversize_message_rejected (screen : String → ScreenResult)
    (redact : String → String) (classify : String → Bool) (t : String)
    (h : MAX_MESSAGE_LENGTH < t.length) :
    handleEnvelope screen redact classify t = ⟨some "InputTooLarge", none⟩ := by
  simp [handleEnvelope, h]

/-- C4 witness: a 10001-character message is rejected as InputTooLarge with
no pipeline run. -/
theorem C4_oversize_message_rejected_witness :
    handleEnvelope (fun _ => ⟨false, false⟩) (fun t => t) (fun _ => true)
        (String.mk (List.replicate 10001 'a')) =
      ⟨some "InputTooLarge", none⟩ := by
  apply C4_oversize_message_rejected
  show MAX_MESSAGE_LENGTH < (List.replicate 10001 'a').length
  rw [List.length_replicate]
  decide

/-- C6: a chat response carrying status 402 or 403 makes the client
navigate to the /payment page (throwing, so the response body is never
rendered as assistant content). -/
theorem C6_entitlement_redirect (status : Nat) (errBody : Option String)
    (h : status = 402 ∨ status = 403) :
    handleSubmitDispatch status errBody =
      .navigate "/payment"
        "Subscription required. Redirecting to payment..." := by
  rcases h with h | h <;> simp [handleSubmitDispatch, h]

/-- C6 witness: a 402 response redirects the client to /payment. -/
theorem C6_entitlement_redirect_witness :
    handleSubmitDispatch 402 none =
      .navigate "/payment"
        "Subscription required. Redirecting to payment..." :=
  C6_entitlement_redirect 402 none (Or.inl rfl)

/-- C7: for every input the Fast Pattern Screen conclusively blocks, the
Guardrail Pipeline invokes the Redactor zero times and the Intent Classifier
zero times, the verdict is BLOCKED, and nothing is forwarded. -/
theorem C7_conclusive_block_short_circuits (screen : String → ScreenResult)
    (redact : String → String) (classify : String → Bool) (t : String)
    (h : (screen t).conclusiveBlock = true) :
    runPipeline screen redact classify t = ⟨.BLOCKED, 0, 0, none⟩ := by
  simp [runPipeline, h]

/-- C7 witness: a screen that conclusively blocks every input yields
BLOCKED with zero Redactor and Classifier invocations. -/
theorem C7_conclusive_block_short_circuits_witness :
    runPipeline (fun _ => ⟨true, true⟩) (fun t => t) (fun _ => true)
        "rm -rf /" =
      ⟨.BLOCKED, 0, 0, none⟩ :=
  C7_conclusive_block_short_circuits (fun _ => ⟨true, true⟩) (fun t => t)
    (fun _ => true) "rm -rf /" rfl

/-- C8: the Scoped Session Key derivation is injective in the identity
component for a fixed conversationId — two distinct requester identities
supplying the same conversationId always derive distinct keys. -/
theorem C8_scoped_key_injective (i1 i2 c : String) (h : i1 ≠ i2) :
    scopedSessionKey i1 c ≠ scopedSessionKey i2 c := by
  intro he
  apply h
  have hd := congrArg String.data he
  simp [scopedSessionKey, String.data_append] at hd
  exact String.ext hd

/-- C8 witness: two concrete distinct identities with the same
conversationId derive distinct keys. -/
theorem C8_scoped_key_injective_witness :
    scopedSessionKey "alice" "conv1" ≠ scopedSessionKey "bob" "conv1" :=
  C8_scoped_key_injective "alice" "bob" "conv1" (by decide)

/-- C10: for a request carrying a session_id whose Stripe retrieval
succeeds, the cookie is set and the body is success exactly when the session
status is complete and the payment_status is paid; an open session yields
pending without the cookie; a session whose status is neither complete nor
open yields failed without the cookie. -/
theorem C10_check_payment_status (sid : String) (s : StripeSession) :
    ((GET (some sid) (some s)).cookieSet = true ∧
        (GET (some sid) (some s)).verdict = .success ↔
      s.status = "complete" ∧ s.payment_status = "paid") ∧
    (s.status = "open" → GET (some sid) (some s) = ⟨.pending, false⟩) ∧
    (s.status ≠ "complete" → s.status ≠ "open" →
      GET (some sid) (some s) = ⟨.failed, false⟩) := by
  by_cases h1 : s.status = "complete" <;>
    by_cases h2 : s.payment_status = "paid" <;>
      by_cases h3 : s.status = "open" <;>
        simp_all [GET]

/-- C10 witness: a complete and paid session sets the cookie with body
success, an open session yields pending without the cookie, and an expired
session yields failed without the cookie. -/
theorem C10_check_payment_status_witness :
    ((GET (some "sid") (some ⟨"complete", "paid"⟩)).cookieSet = true ∧
      (GET (some "sid") (some ⟨"complete", "paid"⟩)).verdict = .success) ∧
    GET (some "sid") (some ⟨"open", "unpaid"⟩) = ⟨.pending, false⟩ ∧
    GET (some "sid") (some ⟨"expired", "unpaid"⟩) = ⟨.failed, false⟩ :=
  ⟨(C10_check_payment_status "sid" ⟨"complete", "paid"⟩).1.mpr ⟨rfl, rfl⟩,
   (C10_check_payment_status "sid" ⟨"open", "unpaid"⟩).2.1 rfl,
   (C10_check_payment_status "sid" ⟨"expired", "unpaid"⟩).2.2 (by decide)
     (by decide)⟩

end Gateway
